import Mathlib

/-!
# Verification of the weather-ruretse forecast-correction engine

Shallow embedding of the parts of the repository that the checked claims
concern, together with theorems settling each claim.

Conventions of the embedding:
* SQLite TEXT values are Lean `String`s; SQLite's BINARY collation on the
  ASCII strings involved coincides with Lean's lexicographic `String` order.
* numpy/pandas floating-point values are modelled as `ℚ` (the claims checked
  here are exact algebraic/relational facts, not rounding facts).
* A fitted LightGBM/sklearn estimator is an opaque function supplied by the
  external toolkit ("learn oracles" below); per the sklearn contract, fitting
  on a DataFrame records the list of column names (`feature_name_`), which the
  embedding keeps as an explicit `featureNames` field.
* An estimator constructed but never fitted raises `NotFittedError` when its
  `predict` is invoked; the embedding keeps unfitted estimators as `none` and
  makes the calling `predict` return `none` in that case.
* A python dict with string keys is an association list `List (String × _)`
  in insertion order; `dict[k] = v` on an existing key is value replacement.
-/

namespace Weather

/-- A row of the `forecasts` table (src/db.py `init_db`).  Only the columns
that drive the paired join are kept; the meteorological payload is summarised
by `temperature_2m`, which suffices to see which row was selected. -/
structure ForecastRow where
  fetched_at : String
  valid_time : String
  source : String
  lead_hours : Option Int
  temperature_2m : Option ℚ
  deriving Repr, DecidableEq

/-- A row of the `observations` table (src/db.py `init_db`); `time` is the
primary key. -/
structure ObservationRow where
  time : String
  temperature_2m : Option ℚ
  precipitation : Option ℚ
  deriving Repr, DecidableEq

/-- SQLite's BINARY collation on TEXT values: strict byte-wise lexicographic
comparison (on the ASCII strings stored here, byte order and character order
coincide). -/
def bytesLt : List Char → List Char → Bool
  | [], [] => false
  | [], _ :: _ => true
  | _ :: _, [] => false
  | a :: as, b :: bs => if a < b then true else if b < a then false else bytesLt as bs

/-- `a` sorts strictly before `b` under SQLite's TEXT ordering. -/
def textLt (a b : String) : Bool := bytesLt a.data b.data

/-- The candidate forecast rows for one valid time in `load_paired_data`'s
`latest_fcst` CTE: rows with `source = 'best_match'` and the given
`valid_time` (the `PARTITION BY valid_time, source` with the source fixed by
the `WHERE`). -/
def fcstCandidates (fs : List ForecastRow) (v : String) : List ForecastRow :=
  fs.filter (fun f => f.source = "best_match" ∧ f.valid_time = v)

/-- The row with `ROW_NUMBER() = 1` when ordering a partition by `fetched_at
DESC`: the candidate with the lexically greatest `fetched_at` (unique in any
table satisfying the `(fetched_at, valid_time, source)` primary key). -/
def latestFcst (fs : List ForecastRow) (v : String) : Option ForecastRow :=
  (fcstCandidates fs v).foldl
    (fun acc f =>
      match acc with
      | none => some f
      | some g => if textLt g.fetched_at f.fetched_at then some f else some g)
    none

/-- src/db.py `load_paired_data`: inner join of each observation with the
`rn = 1` forecast row at the same valid time, ordered by observation time
(the order of `obs`, which the `observations` query returns sorted). -/
def load_paired_data (obs : List ObservationRow) (fs : List ForecastRow) :
    List (ObservationRow × ForecastRow) :=
  obs.filterMap (fun o => (latestFcst fs o.time).map (fun f => (o, f)))

/-! Concrete tables exhibiting the backfill/live interaction of the join:
one observation hour, with both a live forecast issue (ISO-8601 `fetched_at`,
written by src/collector.py `store_forecast`) and a backfilled issue
(`fetched_at = 'backfill'`, written by `store_historical_forecast_chunk`)
for that same valid time and source. -/

/-- A live forecast issue for 2024-05-01T12:00. -/
def liveIssue : ForecastRow :=
  { fetched_at := "2024-05-01T06:00:00+00:00"
    valid_time := "2024-05-01T12:00"
    source := "best_match"
    lead_hours := some 6
    temperature_2m := some 20 }

/-- A backfilled historical-forecast row for the same valid time
(src/collector.py `store_historical_forecast_chunk`: `fetched_at` is the
marker string `'backfill'` and `lead_hours` is NULL). -/
def backfillIssue : ForecastRow :=
  { fetched_at := "backfill"
    valid_time := "2024-05-01T12:00"
    source := "best_match"
    lead_hours := none
    temperature_2m := some 15 }

/-- The observation realised at that valid time. -/
def obsAtNoon : ObservationRow :=
  { time := "2024-05-01T12:00", temperature_2m := some 18, precipitation := some 0 }

/-- C1: the paired join's tie-break is the lexically greatest `fetched_at`,
and the marker string `'backfill'` sorts *after* every ISO-8601 timestamp
(`'b'` > any digit), so on a table holding both a live timestamped issue and
a backfilled issue for the same valid time, `load_paired_data` selects the
backfilled row — contradicting the stated invariant that backfilled rows are
used only when no live issue exists. -/
theorem load_paired_data_backfill_shadows_live :
    liveIssue.fetched_at ≠ "backfill" ∧
    liveIssue ∈ fcstCandidates [liveIssue, backfillIssue] obsAtNoon.time ∧
    textLt liveIssue.fetched_at backfillIssue.fetched_at = true ∧
    (load_paired_data [obsAtNoon] [liveIssue, backfillIssue]).map
      (fun p => p.2.fetched_at) = ["backfill"] := by
  decide

/-! ## Fitted estimators (external gradient-boosting / sklearn capability)

`fit` on a DataFrame learns an opaque prediction function and records the
DataFrame's column names as `feature_name_`; the embedding carries both. -/

/-- A fitted estimator: the feature-name list recorded at fit time
(sklearn/LightGBM `feature_name_`) and the learned per-row prediction
function. -/
structure Fitted (α : Type) where
  featureNames : List String
  predictFn : α → ℚ

/-- config.py `PRECIP_THRESHOLD_MM = 0.1`: the rational 1/10, written in
normalized numerator/denominator form so that comparisons against it
compute. -/
def PRECIP_THRESHOLD_MM : ℚ := ⟨1, 10, by norm_num, by norm_num⟩

/-- The threshold literal is the rational 0.1. -/
theorem PRECIP_THRESHOLD_MM_eq : PRECIP_THRESHOLD_MM = 1 / 10 := by
  rw [PRECIP_THRESHOLD_MM, Rat.mk'_eq_divInt]
  norm_num [Rat.divInt_eq_div]

/-! ## WeatherPredictor (src/models.py) -/

/-- The keys of `WeatherPredictor.targets`, in dict insertion order. -/
inductive WTarget
  | temperature
  | humidity
  | wind_speed
  | wind_direction
  deriving Repr, DecidableEq

/-- The python dict key of a target. -/
def WTarget.name : WTarget → String
  | .temperature => "temperature"
  | .humidity => "humidity"
  | .wind_speed => "wind_speed"
  | .wind_direction => "wind_direction"

/-- Iteration order of `self.targets.items()`. -/
def wTargetList : List WTarget :=
  [.temperature, .humidity, .wind_speed, .wind_direction]

/-- One row of the engineered training frame: the feature vector `x` (a row
of `X = df[feature_cols]`) and the `obs_*` label columns consumed by the two
`train` methods (`None` models a NULL/NaN label dropped by `dropna`). -/
structure WRow (α : Type) where
  x : α
  obs_temp : Option ℚ
  obs_humidity : Option ℚ
  obs_wind_speed : Option ℚ
  obs_wind_dir : Option ℚ
  obs_precip : Option ℚ

/-- `self.target_to_obs_col`: the label column backing each target. -/
def WRow.label (r : WRow α) : WTarget → Option ℚ
  | .temperature => r.obs_temp
  | .humidity => r.obs_humidity
  | .wind_speed => r.obs_wind_speed
  | .wind_direction => r.obs_wind_dir

/-- The external LightGBM regression capability used by
`WeatherPredictor.train`: `point t train val` is the function learned by the
early-stopped point model for target `t` on the given train/eval rows;
`quant t a train` the `objective="quantile", alpha=a` model fit on the train
rows alone. -/
structure WeatherOracles (α : Type) where
  point : WTarget → List (α × ℚ) → List (α × ℚ) → α → ℚ
  quant : WTarget → ℚ → List (α × ℚ) → α → ℚ

/-- The mutable state of a `WeatherPredictor`: `self.models` and
`self.quantile_models` (the latter mapping a target to its 0.1 and 0.9
quantile models), both dicts in insertion order. -/
structure WeatherPredictor (α : Type) where
  models : List (WTarget × Fitted α)
  quantile_models : List (WTarget × (Fitted α × Fitted α))

/-- The label/feature pairs a target is trained on: rows of the slice whose
label column is non-null (`dropna` + index intersection, the indexes of `X`
and `y` coinciding because both frames are slices of the same table). -/
def validPairs (t : WTarget) (rows : List (WRow α)) : List (α × ℚ) :=
  rows.filterMap (fun r => (r.label t).map (fun y => (r.x, y)))

/-- One iteration of the target loop in `WeatherPredictor.train`: skip the
target when fewer than 100 labelled training rows exist, otherwise fit the
point model (recording the feature columns `names`) and the 0.1/0.9 quantile
models on the labelled pairs. -/
def weatherTrainStep (lo : WeatherOracles α) (names : List String)
    (trainRows valRows : List (WRow α)) (wp : WeatherPredictor α) (t : WTarget) :
    WeatherPredictor α :=
  if (validPairs t trainRows).length < 100 then wp
  else
    { models := wp.models ++
        [(t, ⟨names, lo.point t (validPairs t trainRows) (validPairs t valRows)⟩)]
      quantile_models := wp.quantile_models ++
        [(t, (⟨names, lo.quant t (1/10) (validPairs t trainRows)⟩,
              ⟨names, lo.quant t (9/10) (validPairs t trainRows)⟩))] }

/-- src/models.py `WeatherPredictor.train`: the target loop over
`self.targets.items()`, starting from the freshly constructed empty model
dicts. -/
def weatherTrain (lo : WeatherOracles α) (names : List String)
    (trainRows valRows : List (WRow α)) : WeatherPredictor α :=
  wTargetList.foldl (weatherTrainStep lo names trainRows valRows) ⟨[], []⟩

/-- The `results` dict of `WeatherPredictor.predict` as it stands after the
prediction loop and before the physical-constraints block: per fitted target
in insertion order, the point estimate and — when quantile models exist for
it — the `_q10`/`_q90` entries. -/
def WeatherPredictor.rawResults (m : WeatherPredictor α) (x : α) : List (String × ℚ) :=
  m.models.flatMap (fun tf =>
    (tf.1.name, tf.2.predictFn x) ::
      match m.quantile_models.find? (fun q => q.1 = tf.1) with
      | some q => [(tf.1.name ++ "_q10", q.2.1.predictFn x),
                   (tf.1.name ++ "_q90", q.2.2.predictFn x)]
      | none => [])

/-- src/models.py `WeatherPredictor.predict` on one feature row: the raw
results, with the entry keyed `"humidity"` clipped to [0,100] (`np.clip`)
and the entry keyed `"wind_speed"` floored at 0 (`np.maximum`). -/
def WeatherPredictor.predictRow (m : WeatherPredictor α) (x : α) : List (String × ℚ) :=
  (m.rawResults x).map (fun p =>
    if p.1 = "humidity" then (p.1, min (max p.2 0) 100)
    else if p.1 = "wind_speed" then (p.1, max p.2 0)
    else p)

/-- The dict persisted by `WeatherPredictor.save` via joblib: the fitted
estimators themselves (each carrying its recorded `feature_name_`). -/
structure WeatherBundle (α : Type) where
  models : List (WTarget × Fitted α)
  quantile_models : List (WTarget × (Fitted α × Fitted α))

/-- src/models.py `WeatherPredictor.save`. -/
def weatherSave (m : WeatherPredictor α) : WeatherBundle α :=
  ⟨m.models, m.quantile_models⟩

/-- src/models.py `WeatherPredictor.load`. -/
def weatherLoad (b : WeatherBundle α) : WeatherPredictor α :=
  ⟨b.models, b.quantile_models⟩

/-- src/predict.py line 86: `wp.models["temperature"].feature_name_` — the
feature list recovered from the persisted temperature estimator (`none`
models the KeyError when no temperature model was trained). -/
def servingTrainedFeatures (wp : WeatherPredictor α) : Option (List String) :=
  (wp.models.find? (fun p => p.1 = .temperature)).map (fun p => p.2.featureNames)

/-! ## PrecipitationPredictor (src/models.py) -/

/-- The clamp the isotonic calibrator is constructed with:
`IsotonicRegression(y_min=0, y_max=1, out_of_bounds="clip")` guarantees every
served calibrated value lies in [0,1]. -/
def clip01 (q : ℚ) : ℚ := min (max q 0) 1

/-- The external capabilities consumed by `PrecipitationPredictor.train`:
the binary classifier's learned probability (`predict_proba[:, 1]`), the
isotonic map fitted on (raw validation probability, binary label) pairs
before its [0,1] clamp, the Tweedie amount regressor (second argument is the
optional eval set), and the per-alpha quantile regressors. -/
structure PrecipOracles (α : Type) where
  cls : List (α × Bool) → List (α × Bool) → α → ℚ
  iso : List (ℚ × Bool) → ℚ → ℚ
  reg : List (α × ℚ) → Option (List (α × ℚ)) → α → ℚ
  quant : ℚ → List (α × ℚ) → α → ℚ

/-- The mutable state of a `PrecipitationPredictor`.  `__init__` constructs
the classifier and regressor *unfitted* (`none` here: invoking `predict` on
them raises `NotFittedError`), an empty quantile dict and no calibrator. -/
structure PrecipPredictor (α : Type) where
  classifier : Option (Fitted α)
  regressor : Option (Fitted α)
  quantile_models : List (ℚ × Fitted α)
  calibrator : Option (ℚ → ℚ)

/-- The rows whose observed precipitation meets the threshold
(`y >= PRECIP_THRESHOLD_MM`, the rain mask). -/
def rainRows (rows : List (α × ℚ)) : List (α × ℚ) :=
  rows.filter (fun r => PRECIP_THRESHOLD_MM ≤ r.2)

/-- The dict key of a served quantile band:
`f"precip_q{int(alpha*100):02d}_mm"` (all alphas used give two digits). -/
def precipQKey (a : ℚ) : String := "precip_q" ++ toString (⌊a * 100⌋.toNat) ++ "_mm"

/-- The quantile alphas of the regression stage, in loop order. -/
def precipAlphas : List ℚ := [1/10, 1/4, 1/2, 3/4, 9/10]

/-- The binary labels `(y >= PRECIP_THRESHOLD_MM).astype(int)` paired with
their feature rows. -/
def precipBin (rows : List (α × ℚ)) : List (α × Bool) :=
  rows.map (fun r => (r.1, decide (PRECIP_THRESHOLD_MM ≤ r.2)))

/-- Stage 1 of `PrecipitationPredictor.train`: the probability function of
the binary classifier fit on the train labels with the validation fold as
eval set. -/
def precipClsFn (po : PrecipOracles α) (trainP valP : List (α × ℚ)) : α → ℚ :=
  po.cls (precipBin trainP) (precipBin valP)

/-- Stage 2 of `PrecipitationPredictor.train`: the isotonic map fit on the
validation fold's raw probabilities against its binary labels (before the
[0,1] clamp the calibrator object applies). -/
def precipCalFn (po : PrecipOracles α) (trainP valP : List (α × ℚ)) : ℚ → ℚ :=
  po.iso ((valP.map (fun r => precipClsFn po trainP valP r.1)).zip
    ((precipBin valP).map (fun r => r.2)))

/-- src/models.py `PrecipitationPredictor.train`: fit the binary classifier
on `y >= threshold` labels, fit the isotonic calibrator on the validation
fold's raw probabilities, and fit the Tweedie regressor plus the five
quantile models on the rain-positive training rows only — but only when
`rain_mask_train.sum() > 100`; otherwise the regression stage is left in its
unfitted `__init__` state. -/
def precipTrain (po : PrecipOracles α) (names : List String)
    (trainP valP : List (α × ℚ)) : PrecipPredictor α :=
  { classifier := some ⟨names, precipClsFn po trainP valP⟩
    calibrator := some (fun p => clip01 (precipCalFn po trainP valP p))
    regressor :=
      if 100 < (rainRows trainP).length then
        some ⟨names, po.reg (rainRows trainP)
          (if 10 < (rainRows valP).length then some (rainRows valP) else none)⟩
      else none
    quantile_models :=
      if 100 < (rainRows trainP).length then
        precipAlphas.map (fun a => (a, ⟨names, po.quant a (rainRows trainP)⟩))
      else [] }

/-- src/models.py `PrecipitationPredictor.predict` on one feature row: the
classifier's raw probability passes through the calibrator when one exists;
the regressor's raw amount is floored at 0; the expected amount is their
product; each quantile prediction is floored at 0 then scaled by the
probability.  Invoking an unfitted classifier or regressor raises
(`none`). -/
def PrecipPredictor.predictRow (m : PrecipPredictor α) (x : α) :
    Option (List (String × ℚ)) :=
  match m.classifier, m.regressor with
  | some c, some r =>
    let raw_probs := c.predictFn x
    let prob := match m.calibrator with | some g => g raw_probs | none => raw_probs
    let raw_amount := max (r.predictFn x) 0
    some ([("precip_probability", prob),
           ("precip_expected_mm", prob * raw_amount),
           ("precip_if_rain_mm", raw_amount)] ++
      m.quantile_models.map (fun aq => (precipQKey aq.1, max (aq.2.predictFn x) 0 * prob)))
  | _, _ => none

/-- The dict persisted by `PrecipitationPredictor.save` via joblib. -/
structure PrecipBundle (α : Type) where
  classifier : Option (Fitted α)
  regressor : Option (Fitted α)
  calibrator : Option (ℚ → ℚ)
  quantile_models : List (ℚ × Fitted α)

/-- src/models.py `PrecipitationPredictor.save`. -/
def precipSave (m : PrecipPredictor α) : PrecipBundle α :=
  ⟨m.classifier, m.regressor, m.calibrator, m.quantile_models⟩

/-- src/models.py `PrecipitationPredictor.load`. -/
def precipLoad (b : PrecipBundle α) : PrecipPredictor α :=
  ⟨b.classifier, b.regressor, b.quantile_models, b.calibrator⟩

/-! ## Serve-time feature alignment (src/predict.py lines 84–96) -/

/-- `df[c]`: the column of the engineered frame keyed `c`. -/
def lookupCol (cols : List (String × β)) (c : String) : Option β :=
  (cols.find? (fun p => p.1 = c)).map (fun p => p.2)

/-- src/predict.py lines 86–93: compute the trained features missing from
the engineered frame, fill each with the constant-zero column, and select
`X = df[trained_features]` (exactly the trained columns, in trained order —
extra engineered columns are dropped).  Returns `X` together with the
reported `missing` list (the printed warning). -/
def alignFeatures (trained : List String) (zero : β)
    (cols : List (String × β)) : List (String × β) × List String :=
  let missing := trained.filter (fun c => (lookupCol cols c).isNone)
  let filled := cols ++ missing.map (fun c => (c, zero))
  (trained.map (fun c => (c, (lookupCol filled c).getD zero)), missing)

/-! ## TrainingOrchestrator (src/train.py `main`) -/

/-- src/train.py lines 39–42: `split_idx = int(len(df) * 0.8)` followed by
positional slicing.  For every table size the float product `n * 0.8` rounds
so that `int` of it equals `⌊4n/5⌋`, which is how the index is written
here. -/
def chronoSplit (rows : List γ) : List γ × List γ :=
  (rows.take (4 * rows.length / 5), rows.drop (4 * rows.length / 5))

/-- What a `train.py` invocation leaves behind: the process exit code and
the bundle files written to `MODEL_PATH` / `PRECIP_MODEL_PATH` (`none` when
the run wrote nothing). -/
structure TrainOutcome (α : Type) where
  exitCode : Nat
  savedWeather : Option (WeatherBundle α)
  savedPrecip : Option (PrecipBundle α)

/-- train.py lines 62–65: the non-null `obs_precip` labels of a slice paired
with its feature rows (`dropna` + index intersection). -/
def precipPairs (rows : List (WRow α)) : List (α × ℚ) :=
  rows.filterMap (fun r => r.obs_precip.map (fun y => (r.x, y)))

/-- src/train.py `main`: abort with exit code 1 and no writes when fewer
than 500 paired rows were loaded; otherwise engineer features (the
FeatureBuilder plus sparse-row drop of lines 30–37, supplied as `featurize`,
returning the engineered rows and the feature-column names), split
chronologically, train both predictors and persist both bundles. -/
def trainMain (featurize : List (ObservationRow × ForecastRow) → List (WRow α) × List String)
    (lo : WeatherOracles α) (po : PrecipOracles α)
    (df : List (ObservationRow × ForecastRow)) : TrainOutcome α :=
  if df.length < 500 then ⟨1, none, none⟩
  else
    let fr := featurize df
    let split := chronoSplit fr.1
    let wp := weatherTrain lo fr.2 split.1 split.2
    let pp := precipTrain po fr.2 (precipPairs split.1) (precipPairs split.2)
    ⟨0, some (weatherSave wp), some (precipSave pp)⟩

/-! ## Concrete instantiations used by witnesses -/

/-- Trivial external learning capability (weather), for concrete runs. -/
def trivialWeatherOracles : WeatherOracles Unit :=
  ⟨fun _ _ _ _ => 0, fun _ _ _ _ => 0⟩

/-- Concrete external capability (precipitation): raw probability 1/2,
identity isotonic map, conditional amount 2, every quantile 3. -/
def poEx : PrecipOracles Unit :=
  ⟨fun _ _ _ => 1/2, fun _ p => p, fun _ _ _ => 2, fun _ _ _ => 3⟩

/-! ## Theorems -/

/-- C3: with fewer than 500 paired rows, `train.py` exits with code 1 before
feature engineering, fitting or persisting — the run writes neither the
weather bundle nor the precipitation bundle. -/
theorem trainMain_aborts_below_500 {α : Type}
    (featurize : List (ObservationRow × ForecastRow) → List (WRow α) × List String)
    (lo : WeatherOracles α) (po : PrecipOracles α)
    (df : List (ObservationRow × ForecastRow)) (h : df.length < 500) :
    trainMain featurize lo po df = ⟨1, none, none⟩ := by
  unfold trainMain
  rw [if_pos h]

/-- Witness for C3: the empty paired table has fewer than 500 rows and the
run aborts with exit code 1 and no bundle writes. -/
theorem trainMain_aborts_below_500_witness :
    ([] : List (ObservationRow × ForecastRow)).length < 500 ∧
    trainMain (fun _ => (([] : List (WRow Unit)), ([] : List String)))
      trivialWeatherOracles poEx [] = ⟨1, none, none⟩ :=
  ⟨by decide,
   trainMain_aborts_below_500 (fun _ => ([], [])) trivialWeatherOracles poEx [] (by decide)⟩

/-- C6: the train/validation split is chronological and never shuffled — on
a time-ordered table the training slice is exactly the first
`⌊0.8·n⌋` rows by index position, the validation slice the rest, their
concatenation is the original table, and every training-row timestamp is ≤
every validation-row timestamp. -/
theorem chronoSplit_chronological {γ τ : Type} [LinearOrder τ] (time : γ → τ)
    (rows : List γ) (hsorted : rows.Pairwise (fun a b => time a ≤ time b)) :
    (chronoSplit rows).1 = rows.take (4 * rows.length / 5) ∧
    (chronoSplit rows).2 = rows.drop (4 * rows.length / 5) ∧
    (chronoSplit rows).1 ++ (chronoSplit rows).2 = rows ∧
    ∀ a ∈ (chronoSplit rows).1, ∀ b ∈ (chronoSplit rows).2, time a ≤ time b := by
  refine ⟨rfl, rfl, List.take_append_drop _ _, fun a ha b hb => ?_⟩
  exact hsorted.rel_of_mem_take_of_mem_drop ha hb

/-- Witness for C6: a sorted five-row table splits 4/1 and every training
timestamp is ≤ every validation timestamp. -/
theorem chronoSplit_chronological_witness :
    List.Pairwise (fun a b : ℕ => id a ≤ id b) [1, 2, 3, 4, 5] ∧
    (chronoSplit [1, 2, 3, 4, 5]).1 = [1, 2, 3, 4] ∧
    ∀ a ∈ (chronoSplit [1, 2, 3, 4, 5]).1,
      ∀ b ∈ (chronoSplit [1, 2, 3, 4, 5]).2, id a ≤ id b :=
  ⟨by decide, by decide,
   (chronoSplit_chronological id [1, 2, 3, 4, 5] (by decide)).2.2.2⟩

/-! ### Shared lemmas about column lookup and `predictRow` -/

lemma lookupCol_append {β : Type} (l₁ l₂ : List (String × β)) (c : String) :
    lookupCol (l₁ ++ l₂) c = (lookupCol l₁ c).or (lookupCol l₂ c) := by
  cases h : l₁.find? (fun p => p.1 = c) <;>
    simp [lookupCol, List.find?_append, h, Option.or]

lemma lookupCol_map_self {β : Type} (zero : β) (l : List String) (c : String)
    (hc : c ∈ l) : lookupCol (l.map (fun c => (c, zero))) c = some zero := by
  induction l with
  | nil => cases hc
  | cons a as ih =>
    rw [List.map_cons]
    by_cases h : a = c
    · simp [lookupCol, List.find?_cons_of_pos, h]
    · have hc' : c ∈ as := by
        rcases List.mem_cons.mp hc with h' | h'
        · exact absurd h'.symm h
        · exact h'
      have hfind := ih hc'
      rw [lookupCol] at hfind ⊢
      rw [List.find?_cons_of_neg]
      · exact hfind
      · simp [h]

lemma lookupCol_cons_pos {β : Type} (v : β) (rest : List (String × β)) (c : String) :
    lookupCol ((c, v) :: rest) c = some v := by
  simp [lookupCol]

lemma lookupCol_cons_neg {β : Type} (k : String) (v : β) (rest : List (String × β))
    (c : String) (h : k ≠ c) :
    lookupCol ((k, v) :: rest) c = lookupCol rest c := by
  simp [lookupCol, h]

lemma PrecipPredictor.predictRow_none_of_regressor {α : Type}
    (m : PrecipPredictor α) (x : α) (h : m.regressor = none) :
    m.predictRow x = none := by
  rw [PrecipPredictor.predictRow, h]
  cases m.classifier <;> rfl

lemma PrecipPredictor.predictRow_spec {α : Type} (m : PrecipPredictor α)
    (c r : Fitted α) (g : ℚ → ℚ) (x : α)
    (hc : m.classifier = some c) (hr : m.regressor = some r)
    (hg : m.calibrator = some g) :
    m.predictRow x =
      some ([("precip_probability", g (c.predictFn x)),
             ("precip_expected_mm", g (c.predictFn x) * max (r.predictFn x) 0),
             ("precip_if_rain_mm", max (r.predictFn x) 0)] ++
        m.quantile_models.map (fun aq =>
          (precipQKey aq.1, max (aq.2.predictFn x) 0 * g (c.predictFn x)))) := by
  rw [PrecipPredictor.predictRow, hc, hr, hg]

/-- C4: serve-time feature alignment — `X` holds exactly the trained feature
names in their trained order, each valued by the engineered column when
present and by the constant zero column otherwise; the reported missing list
is exactly the trained names absent from the frame; extra engineered columns
are ignored (no key of `X` is outside the trained list); and any trained
name absent from the frame appears in `X` zero-filled.  The function is
total: prediction proceeds instead of failing. -/
theorem alignFeatures_zero_fill_spec {β : Type} (trained : List String) (zero : β)
    (cols : List (String × β)) :
    (alignFeatures trained zero cols).1 =
      trained.map (fun c => (c, (lookupCol cols c).getD zero)) ∧
    (alignFeatures trained zero cols).2 =
      trained.filter (fun c => (lookupCol cols c).isNone) ∧
    (∀ p ∈ (alignFeatures trained zero cols).1, p.1 ∈ trained) ∧
    (∀ c ∈ trained, lookupCol cols c = none →
      (c, zero) ∈ (alignFeatures trained zero cols).1) := by
  have key : ∀ c ∈ trained,
      (fun c => (c, (lookupCol (cols ++ (trained.filter
          (fun c => (lookupCol cols c).isNone)).map (fun c => (c, zero))) c).getD zero)) c
        = (fun c => (c, (lookupCol cols c).getD zero)) c := by
    intro c hc
    simp only []
    rw [lookupCol_append]
    cases h : lookupCol cols c with
    | some v => simp [h, Option.or]
    | none =>
      have hmem : c ∈ trained.filter (fun c => (lookupCol cols c).isNone) :=
        List.mem_filter.mpr ⟨hc, by simp [h]⟩
      simp [Option.or, lookupCol_map_self zero _ c hmem]
  have h1 : (alignFeatures trained zero cols).1 =
      trained.map (fun c => (c, (lookupCol cols c).getD zero)) :=
    List.map_congr_left key
  refine ⟨h1, rfl, ?_, ?_⟩
  · intro p hp
    rw [h1] at hp
    obtain ⟨c, hc, rfl⟩ := List.mem_map.mp hp
    exact hc
  · intro c hc h
    rw [h1]
    have hm := List.mem_map_of_mem (fun c => (c, (lookupCol cols c).getD zero)) hc
    simpa [h] using hm

/-- Witness for C4: a bundle trained on {A,B,C} served a frame holding only
{A,B} (plus an extra column) yields an `X` where C is zero-filled. -/
theorem alignFeatures_zero_fill_witness :
    ("C", (0 : ℚ)) ∈ (alignFeatures ["A", "B", "C"] (0 : ℚ)
      [("A", 5), ("B", 7), ("extra", 9)]).1 :=
  (alignFeatures_zero_fill_spec ["A", "B", "C"] 0
    [("A", 5), ("B", 7), ("extra", 9)]).2.2.2 "C" (by decide) (by decide)

/-- C2: on every input where `PrecipitationPredictor.predict` is defined,
the served expected precipitation equals the calibrated rain probability
times the served conditional amount-given-rain, every served quantile band
equals the raw quantile prediction floored at zero then multiplied by the
calibrated probability, and every served quantile output is ≥ 0 (the
calibrated probability lies in [0,1] by the calibrator's construction). -/
theorem precip_predict_composition {α : Type} (po : PrecipOracles α)
    (names : List String) (trainP valP : List (α × ℚ)) (x : α)
    (out : List (String × ℚ))
    (h : (precipTrain po names trainP valP).predictRow x = some out) :
    ∃ prob amt,
      lookupCol out "precip_probability" = some prob ∧
      lookupCol out "precip_if_rain_mm" = some amt ∧
      lookupCol out "precip_expected_mm" = some (prob * amt) ∧
      0 ≤ prob ∧ prob ≤ 1 ∧ 0 ≤ amt ∧
      (∀ aq ∈ (precipTrain po names trainP valP).quantile_models,
        (precipQKey aq.1, max (aq.2.predictFn x) 0 * prob) ∈ out) ∧
      (∀ p ∈ out, p.1 ≠ "precip_probability" → p.1 ≠ "precip_expected_mm" →
        p.1 ≠ "precip_if_rain_mm" → 0 ≤ p.2) := by
  by_cases hreg : 100 < (rainRows trainP).length
  · have hr : (precipTrain po names trainP valP).regressor =
        some ⟨names, po.reg (rainRows trainP)
          (if 10 < (rainRows valP).length then some (rainRows valP) else none)⟩ := by
      show (if 100 < (rainRows trainP).length then _ else none) = _
      rw [if_pos hreg]
    rw [PrecipPredictor.predictRow_spec _ _ _ _ x rfl hr rfl] at h
    injection h with h
    subst h
    refine ⟨clip01 (precipCalFn po trainP valP (precipClsFn po trainP valP x)),
      max (po.reg (rainRows trainP)
        (if 10 < (rainRows valP).length then some (rainRows valP) else none) x) 0,
      lookupCol_cons_pos _ _ _, ?_, ?_, ?_, ?_, le_max_right _ _, ?_, ?_⟩
    · simp only [List.cons_append, List.nil_append]
      rw [lookupCol_cons_neg "precip_probability" _ _ "precip_if_rain_mm" (by decide),
        lookupCol_cons_neg "precip_expected_mm" _ _ "precip_if_rain_mm" (by decide),
        lookupCol_cons_pos]
    · simp only [List.cons_append, List.nil_append]
      rw [lookupCol_cons_neg "precip_probability" _ _ "precip_expected_mm" (by decide),
        lookupCol_cons_pos]
    · exact le_min (le_max_right _ _) (by norm_num)
    · exact min_le_right _ _
    · intro aq haq
      simp only [List.cons_append, List.nil_append]
      exact List.mem_cons_of_mem _ (List.mem_cons_of_mem _ (List.mem_cons_of_mem _
        (List.mem_map_of_mem _ haq)))
    · intro p hp h1 h2 h3
      simp only [List.cons_append, List.nil_append, List.mem_cons] at hp
      rcases hp with h' | h' | h' | hmem
      · exact absurd (by rw [h']) h1
      · exact absurd (by rw [h']) h2
      · exact absurd (by rw [h']) h3
      · obtain ⟨aq, _, rfl⟩ := List.mem_map.mp hmem
        exact mul_nonneg (le_max_right _ _) (le_min (le_max_right _ _) (by norm_num))
  · exfalso
    have hnone : (precipTrain po names trainP valP).predictRow x = none := by
      apply PrecipPredictor.predictRow_none_of_regressor
      show (if 100 < (rainRows trainP).length then _ else none) = none
      rw [if_neg hreg]
    rw [hnone] at h
    cases h

def trEx : List (Unit × ℚ) := List.replicate 101 ((), 1)

def c2out : List (String × ℚ) :=
  [("precip_probability", 1/2), ("precip_expected_mm", 1), ("precip_if_rain_mm", 2),
   ("precip_q10_mm", 3/2), ("precip_q25_mm", 3/2), ("precip_q50_mm", 3/2),
   ("precip_q75_mm", 3/2), ("precip_q90_mm", 3/2)]

/-- Witness for C2: a concretely trained predictor (101 rain rows) serves
probability 1/2, conditional amount 2 and expected amount 1/2 · 2. -/
theorem precip_predict_composition_witness :
    (precipTrain poEx ["f"] trEx []).predictRow () = some c2out ∧
    lookupCol c2out "precip_expected_mm" = some ((1/2 : ℚ) * 2) := by
  have hreg : 100 < (rainRows trEx).length := by decide
  have hr : (precipTrain poEx ["f"] trEx []).regressor =
      some ⟨["f"], poEx.reg (rainRows trEx)
        (if 10 < (rainRows ([] : List (Unit × ℚ))).length
          then some (rainRows ([] : List (Unit × ℚ))) else none)⟩ := by
    show (if 100 < (rainRows trEx).length then _ else none) = _
    rw [if_pos hreg]
    rfl
  have hq : (precipTrain poEx ["f"] trEx []).quantile_models =
      precipAlphas.map (fun a => (a, ⟨["f"], poEx.quant a (rainRows trEx)⟩)) := by
    show (if 100 < (rainRows trEx).length then _ else []) = _
    rw [if_pos hreg]
    rfl
  have h : (precipTrain poEx ["f"] trEx []).predictRow () = some c2out := by
    rw [PrecipPredictor.predictRow_spec _ _ _ _ () rfl hr rfl, hq]
    simp only [precipAlphas, List.map_cons, List.map_nil, List.cons_append,
      List.nil_append, c2out, Option.some.injEq, List.cons.injEq, Prod.mk.injEq]
    norm_num [precipQKey, clip01, precipCalFn, precipClsFn, poEx, min_def, max_def]
    decide
  obtain ⟨prob, amt, h1, h2, h3, _h4, _h5, _h6, _h7, _h8⟩ :=
    precip_predict_composition poEx ["f"] trEx [] () c2out h
  have hp : prob = 1/2 := by
    have heq : some (1/2 : ℚ) = some prob := by
      rw [← h1]
      rw [c2out, lookupCol_cons_pos]
    exact (Option.some.inj heq).symm
  have ha : amt = 2 := by
    have heq : some (2 : ℚ) = some amt := by
      rw [← h2, c2out]
      rw [lookupCol_cons_neg "precip_probability" _ _ "precip_if_rain_mm" (by decide),
        lookupCol_cons_neg "precip_expected_mm" _ _ "precip_if_rain_mm" (by decide),
        lookupCol_cons_pos]
    exact (Option.some.inj heq).symm
  refine ⟨h, ?_⟩
  rw [← hp, ← ha]
  exact h3

/-- A training slice with exactly 100 rain-positive rows. -/
def tr100 : List (Unit × ℚ) := List.replicate 100 ((), 1)

/-- Counterexample for C5: a training slice with exactly 100 rain-positive
rows — the claim says the regression stage is fit with "100 or more such
rows", but the code's guard is `rain_mask_train.sum() > 100`, so at exactly
100 rows the regressor and the quantile ensemble are left unfitted. -/
theorem precipTrain_hundred_rain_rows_skips :
    (rainRows tr100).length = 100 ∧
    (precipTrain poEx ["f"] tr100 []).regressor = none ∧
    (precipTrain poEx ["f"] tr100 []).quantile_models = [] :=
  ⟨by decide, rfl, rfl⟩

/-- C5 (amended): the conditional-amount regressor and the five quantile
models are fit only on training rows whose observed precipitation meets the
threshold, and the regression stage is skipped exactly when *at most* 100
such rain-positive rows exist (fit only with strictly more than 100). -/
theorem precipTrain_regression_stage_spec {α : Type} (po : PrecipOracles α)
    (names : List String) (trainP valP : List (α × ℚ)) :
    (∀ r ∈ rainRows trainP, PRECIP_THRESHOLD_MM ≤ r.2) ∧
    ((precipTrain po names trainP valP).regressor = none ↔
      (rainRows trainP).length ≤ 100) ∧
    ((precipTrain po names trainP valP).quantile_models = [] ↔
      (rainRows trainP).length ≤ 100) ∧
    (100 < (rainRows trainP).length →
      (precipTrain po names trainP valP).regressor =
        some ⟨names, po.reg (rainRows trainP)
          (if 10 < (rainRows valP).length then some (rainRows valP) else none)⟩ ∧
      (precipTrain po names trainP valP).quantile_models =
        precipAlphas.map (fun a => (a, ⟨names, po.quant a (rainRows trainP)⟩))) := by
  have hregdef : (precipTrain po names trainP valP).regressor =
      (if 100 < (rainRows trainP).length then
        some ⟨names, po.reg (rainRows trainP)
          (if 10 < (rainRows valP).length then some (rainRows valP) else none)⟩
      else none) := rfl
  have hqdef : (precipTrain po names trainP valP).quantile_models =
      (if 100 < (rainRows trainP).length then
        precipAlphas.map (fun a => (a, ⟨names, po.quant a (rainRows trainP)⟩))
      else []) := rfl
  refine ⟨?_, ?_, ?_, ?_⟩
  · intro r hr
    have hdec := (List.mem_filter.mp hr).2
    simpa using hdec
  · rw [hregdef]
    by_cases h : 100 < (rainRows trainP).length
    · rw [if_pos h]
      simp [Nat.not_le.mpr h]
    · rw [if_neg h]
      simp [Nat.not_lt.mp h]
  · rw [hqdef]
    by_cases h : 100 < (rainRows trainP).length
    · rw [if_pos h]
      simp [precipAlphas, Nat.not_le.mpr h]
    · rw [if_neg h]
      simp [Nat.not_lt.mp h]
  · intro h
    exact ⟨by rw [hregdef, if_pos h], by rw [hqdef, if_pos h]⟩

/-- Witness for C5 (amended): a rain row of a 101-row slice meets the
threshold. -/
theorem precipTrain_regression_stage_spec_witness :
    PRECIP_THRESHOLD_MM ≤ ((), (1 : ℚ)).2 :=
  (precipTrain_regression_stage_spec poEx ["f"] trEx []).1 ((), 1) (by decide)

/-- C9: `PrecipitationPredictor.predict` invokes the amount regressor
unconditionally — a predictor with an unfitted regressor fails on every
input, a predictor trained with at most 100 rain-positive rows fails on
every input, and any successful prediction implies the regression stage was
fit. -/
theorem precipPredict_requires_fitted_regressor :
    (∀ {α : Type} (m : PrecipPredictor α) (x : α), m.regressor = none →
      m.predictRow x = none) ∧
    (∀ {α : Type} (po : PrecipOracles α) (names : List String)
      (trainP valP : List (α × ℚ)) (x : α),
      (rainRows trainP).length ≤ 100 →
      (precipTrain po names trainP valP).predictRow x = none) ∧
    (∀ {α : Type} (m : PrecipPredictor α) (x : α) (out : List (String × ℚ)),
      m.predictRow x = some out → m.regressor ≠ none) := by
  refine ⟨?_, ?_, ?_⟩
  · intro α m x h
    exact m.predictRow_none_of_regressor x h
  · intro α po names trainP valP x h
    apply PrecipPredictor.predictRow_none_of_regressor
    show (if 100 < (rainRows trainP).length then _ else none) = none
    rw [if_neg (Nat.not_lt.mpr h)]
  · intro α m x out h hn
    rw [m.predictRow_none_of_regressor x hn] at h
    cases h

/-- Witness for C9: training on an empty slice (0 rain rows) leaves the
regressor unfitted and prediction fails. -/
theorem precipPredict_requires_fitted_regressor_witness :
    (rainRows ([] : List (Unit × ℚ))).length ≤ 100 ∧
    (precipTrain poEx ["f"] [] []).predictRow () = none :=
  ⟨by decide, precipPredict_requires_fitted_regressor.2.1 poEx ["f"] [] [] () (by decide)⟩

/-- A concrete fitted weather predictor whose humidity point model predicts
out-of-range (150) and whose quantile models predict negative bounds. -/
def wExample : WeatherPredictor Unit :=
  { models := [(.humidity, ⟨["f"], fun _ => 150⟩), (.wind_speed, ⟨["f"], fun _ => -3⟩)]
    quantile_models := [(.humidity, (⟨["f"], fun _ => -5⟩, ⟨["f"], fun _ => 120⟩)),
                        (.wind_speed, (⟨["f"], fun _ => -1⟩, ⟨["f"], fun _ => 42⟩))] }

/-- C7: for every input on which `WeatherPredictor.predict` is defined
(arbitrary predictor state and arbitrary feature row, including adversarial
values), every output entry keyed `"humidity"` lies in [0,100] and every
entry keyed `"wind_speed"` is ≥ 0. -/
theorem weatherPredict_physical_clip {α : Type} (m : WeatherPredictor α) (x : α) :
    ∀ p ∈ m.predictRow x,
      (p.1 = "humidity" → 0 ≤ p.2 ∧ p.2 ≤ 100) ∧
      (p.1 = "wind_speed" → 0 ≤ p.2) := by
  intro p hp
  simp only [WeatherPredictor.predictRow, List.mem_map] at hp
  obtain ⟨q, _, rfl⟩ := hp
  by_cases h1 : q.1 = "humidity"
  · rw [if_pos h1]
    refine ⟨fun _ => ⟨le_min (le_max_right _ _) (by norm_num), min_le_right _ _⟩,
      fun hw => ?_⟩
    exact absurd (h1.symm.trans hw) (by decide)
  · rw [if_neg h1]
    by_cases h2 : q.1 = "wind_speed"
    · rw [if_pos h2]
      refine ⟨fun hh => absurd (h2.symm.trans hh) (by decide),
        fun _ => le_max_right _ _⟩
    · rw [if_neg h2]
      exact ⟨fun hh => absurd hh h1, fun hw => absurd hw h2⟩

/-- Witness for C7: the example predictor's raw humidity 150 is served as
100 ∈ [0,100] and its raw wind speed −3 is served as 0. -/
theorem weatherPredict_physical_clip_witness :
    (("humidity", (100 : ℚ)) ∈ wExample.predictRow ()) ∧
    (("wind_speed", (0 : ℚ)) ∈ wExample.predictRow ()) ∧
    (0 ≤ (100 : ℚ) ∧ (100 : ℚ) ≤ 100) ∧ (0 ≤ (0 : ℚ)) :=
  ⟨by decide, by decide,
   (weatherPredict_physical_clip wExample () ("humidity", 100) (by decide)).1 rfl,
   (weatherPredict_physical_clip wExample () ("wind_speed", 0) (by decide)).2 rfl⟩

/-- C10: the physical-range clipping touches only the entries keyed
`"humidity"` and `"wind_speed"` — every other raw result (in particular
every `*_q10`/`*_q90` interval entry, whose keys never collide with those
two) is served unchanged, and for some inputs a served humidity interval
bound is negative (−5 < 0) and a served wind-speed interval bound is
negative (−1 < 0). -/
theorem weatherPredict_quantiles_unclipped :
    (∀ {α : Type} (m : WeatherPredictor α) (x : α) (p : String × ℚ),
      p ∈ m.rawResults x → p.1 ≠ "humidity" → p.1 ≠ "wind_speed" →
      p ∈ m.predictRow x) ∧
    (∀ t : WTarget, t.name ++ "_q10" ≠ "humidity" ∧ t.name ++ "_q10" ≠ "wind_speed" ∧
      t.name ++ "_q90" ≠ "humidity" ∧ t.name ++ "_q90" ≠ "wind_speed") ∧
    ("humidity_q10", (-5 : ℚ)) ∈ wExample.predictRow () ∧
    ("wind_speed_q10", (-1 : ℚ)) ∈ wExample.predictRow () := by
  refine ⟨?_, ?_, by decide, by decide⟩
  · intro α m x p hp h1 h2
    have hmem := List.mem_map_of_mem (fun p : String × ℚ =>
      if p.1 = "humidity" then (p.1, min (max p.2 0) 100)
      else if p.1 = "wind_speed" then (p.1, max p.2 0)
      else p) hp
    simp only [if_neg h1, if_neg h2] at hmem
    exact hmem
  · intro t
    cases t <;> exact ⟨by decide, by decide, by decide, by decide⟩

/-- Witness for C10: the example predictor's raw humidity 10th-percentile
−5 passes through the clipping block unchanged. -/
theorem weatherPredict_quantiles_unclipped_witness :
    ("humidity_q10", (-5 : ℚ)) ∈ wExample.predictRow () :=
  weatherPredict_quantiles_unclipped.1 wExample () ("humidity_q10", -5)
    (by decide) (by decide) (by decide)

lemma weatherTrainStep_invariant {α : Type} (lo : WeatherOracles α)
    (names : List String) (trainRows valRows : List (WRow α))
    (wp : WeatherPredictor α) (t : WTarget)
    (h1 : ∀ tf ∈ wp.models, tf.2.featureNames = names)
    (h2 : ∀ tq ∈ wp.quantile_models,
      tq.2.1.featureNames = names ∧ tq.2.2.featureNames = names) :
    (∀ tf ∈ (weatherTrainStep lo names trainRows valRows wp t).models,
      tf.2.featureNames = names) ∧
    (∀ tq ∈ (weatherTrainStep lo names trainRows valRows wp t).quantile_models,
      tq.2.1.featureNames = names ∧ tq.2.2.featureNames = names) := by
  rw [weatherTrainStep]
  by_cases hlen : (validPairs t trainRows).length < 100
  · rw [if_pos hlen]
    exact ⟨h1, h2⟩
  · rw [if_neg hlen]
    constructor
    · intro tf htf
      rcases List.mem_append.mp htf with h | h
      · exact h1 tf h
      · rcases List.mem_cons.mp h with h | h
        · rw [h]
        · cases h
    · intro tq htq
      rcases List.mem_append.mp htq with h | h
      · exact h2 tq h
      · rcases List.mem_cons.mp h with h | h
        · rw [h]
          exact ⟨rfl, rfl⟩
        · cases h

lemma weatherTrain_foldl_featureNames {α : Type} (lo : WeatherOracles α)
    (names : List String) (trainRows valRows : List (WRow α)) :
    ∀ (ts : List WTarget) (wp : WeatherPredictor α),
      (∀ tf ∈ wp.models, tf.2.featureNames = names) →
      (∀ tq ∈ wp.quantile_models,
        tq.2.1.featureNames = names ∧ tq.2.2.featureNames = names) →
      (∀ tf ∈ (ts.foldl (weatherTrainStep lo names trainRows valRows) wp).models,
        tf.2.featureNames = names) ∧
      (∀ tq ∈ (ts.foldl (weatherTrainStep lo names trainRows valRows) wp).quantile_models,
        tq.2.1.featureNames = names ∧ tq.2.2.featureNames = names) := by
  intro ts
  induction ts with
  | nil =>
    intro wp h1 h2
    exact ⟨h1, h2⟩
  | cons t ts ih =>
    intro wp h1 h2
    rw [List.foldl_cons]
    obtain ⟨g1, g2⟩ := weatherTrainStep_invariant lo names trainRows valRows wp t h1 h2
    exact ih _ g1 g2

/-- C8: every estimator persisted in the weather bundle and in the
precipitation bundle carries, as part of the saved artifact, the exact
ordered fit-time feature-name list (`feature_name_`, recorded at fit), and
the serve-time `trained_features` list read back from the persisted weather
bundle's temperature estimator is exactly that fit-time list. -/
theorem bundles_record_fit_time_feature_list {α : Type} (lo : WeatherOracles α)
    (po : PrecipOracles α) (names : List String)
    (trainRows valRows : List (WRow α)) (trP vaP : List (α × ℚ)) :
    (∀ tf ∈ (weatherSave (weatherTrain lo names trainRows valRows)).models,
      tf.2.featureNames = names) ∧
    (∀ tq ∈ (weatherSave (weatherTrain lo names trainRows valRows)).quantile_models,
      tq.2.1.featureNames = names ∧ tq.2.2.featureNames = names) ∧
    (∀ f, (precipSave (precipTrain po names trP vaP)).classifier = some f →
      f.featureNames = names) ∧
    (∀ f, (precipSave (precipTrain po names trP vaP)).regressor = some f →
      f.featureNames = names) ∧
    (∀ aq ∈ (precipSave (precipTrain po names trP vaP)).quantile_models,
      aq.2.featureNames = names) ∧
    (∀ l, servingTrainedFeatures (weatherLoad (weatherSave
        (weatherTrain lo names trainRows valRows))) = some l → l = names) := by
  obtain ⟨g1, g2⟩ := weatherTrain_foldl_featureNames lo names trainRows valRows
    wTargetList ⟨[], []⟩ (by intro tf h; cases h) (by intro tq h; cases h)
  refine ⟨g1, g2, ?_, ?_, ?_, ?_⟩
  · intro f hf
    injection hf with hf
    rw [← hf]
  · intro f hf
    have hdef : (precipSave (precipTrain po names trP vaP)).regressor =
        (if 100 < (rainRows trP).length then
          some ⟨names, po.reg (rainRows trP)
            (if 10 < (rainRows vaP).length then some (rainRows vaP) else none)⟩
        else none) := rfl
    rw [hdef] at hf
    by_cases h : 100 < (rainRows trP).length
    · rw [if_pos h] at hf
      injection hf with hf
      rw [← hf]
    · rw [if_neg h] at hf
      cases hf
  · intro aq haq
    have hdef : (precipSave (precipTrain po names trP vaP)).quantile_models =
        (if 100 < (rainRows trP).length then
          precipAlphas.map (fun a => (a, ⟨names, po.quant a (rainRows trP)⟩))
        else []) := rfl
    rw [hdef] at haq
    by_cases h : 100 < (rainRows trP).length
    · rw [if_pos h] at haq
      obtain ⟨a, _, rfl⟩ := List.mem_map.mp haq
      rfl
    · rw [if_neg h] at haq
      cases haq
  · intro l hl
    rw [servingTrainedFeatures] at hl
    obtain ⟨p, hp, hfl⟩ := Option.map_eq_some'.mp hl
    have hmem := List.mem_of_find?_eq_some hp
    rw [← hfl]
    exact g1 p hmem

/-- 100 rows labelled for temperature only, enough to fit that target. -/
def wRows100 : List (WRow Unit) :=
  List.replicate 100 ⟨(), some 1, none, none, none, none⟩

/-- Witness for C8: after training on 100 temperature-labelled rows with
feature columns ["f1", "f2"], serve-time alignment reads back exactly
["f1", "f2"] from the saved-then-loaded bundle. -/
theorem bundles_record_fit_time_feature_list_witness :
    servingTrainedFeatures (weatherLoad (weatherSave
      (weatherTrain trivialWeatherOracles ["f1", "f2"] wRows100 []))) =
        some ["f1", "f2"] ∧
    (["f1", "f2"] : List String) = ["f1", "f2"] :=
  ⟨rfl,
   (bundles_record_fit_time_feature_list trivialWeatherOracles poEx ["f1", "f2"]
      wRows100 [] [] []).2.2.2.2.2 ["f1", "f2"] rfl⟩

end Weather
